import Mathlib

/-!
Verification of the PMLL repository core (src/testing.py):
an append-only in-memory context log (`PMLL`, backed by the global list
`GLOBAL_PERSISTENT_CONTEXT`) and a content-integrity checker
(`secure_data` = SHA-256 hexdigest, `verify_data` = recompute-and-compare).

The Python code is shallowly embedded: the process-wide mutable state
(the global list and the standard-output stream written by `print`) is
threaded explicitly as a `PState` value; 32-bit machine words are `Nat`
with explicit `% 2 ^ 32`; SHA-256 is implemented in full (FIPS 180-4),
matching `hashlib.sha256(data.encode()).hexdigest()`.
-/

/-- 2 ^ 32, the modulus for 32-bit word arithmetic in SHA-256. -/
def M32 : Nat := 4294967296

/-- Right rotation of a 32-bit word (value assumed `< M32`). -/
def rotr32 (n a : Nat) : Nat := ((a >>> n) ||| (a <<< (32 - n))) % M32

/-- SHA-256 `Ch(e, f, g)` function. -/
def ch32 (e f g : Nat) : Nat := Nat.xor (Nat.land e f) (Nat.land (Nat.xor e 4294967295) g)

/-- SHA-256 `Maj(a, b, c)` function. -/
def maj32 (a b c : Nat) : Nat := Nat.xor (Nat.xor (Nat.land a b) (Nat.land a c)) (Nat.land b c)

/-- SHA-256 big sigma 0. -/
def bigSigma0 (a : Nat) : Nat := Nat.xor (Nat.xor (rotr32 2 a) (rotr32 13 a)) (rotr32 22 a)

/-- SHA-256 big sigma 1. -/
def bigSigma1 (e : Nat) : Nat := Nat.xor (Nat.xor (rotr32 6 e) (rotr32 11 e)) (rotr32 25 e)

/-- SHA-256 small sigma 0. -/
def smallSigma0 (x : Nat) : Nat := Nat.xor (Nat.xor (rotr32 7 x) (rotr32 18 x)) (x >>> 3)

/-- SHA-256 small sigma 1. -/
def smallSigma1 (x : Nat) : Nat := Nat.xor (Nat.xor (rotr32 17 x) (rotr32 19 x)) (x >>> 10)

/-- The 64 SHA-256 round constants of FIPS 180-4, written in decimal. -/
def K256 : List Nat :=
  [1116352408, 1899447441, 3049323471, 3921009573, 961987163,
   1508970993, 2453635748, 2870763221, 3624381080, 310598401,
   607225278, 1426881987, 1925078388, 2162078206, 2614888103,
   3248222580, 3835390401, 4022224774, 264347078, 604807628,
   770255983, 1249150122, 1555081692, 1996064986, 2554220882,
   2821834349, 2952996808, 3210313671, 3336571891, 3584528711,
   113926993, 338241895, 666307205, 773529912, 1294757372,
   1396182291, 1695183700, 1986661051, 2177026350, 2456956037,
   2730485921, 2820302411, 3259730800, 3345764771, 3516065817,
   3600352804, 4094571909, 275423344, 430227734, 506948616,
   659060556, 883997877, 958139571, 1322822218, 1537002063,
   1747873779, 1955562222, 2024104815, 2227730452, 2361852424,
   2428436474, 2756734187, 3204031479, 3329325298]

/-- The SHA-256 working state: eight 32-bit words. -/
structure Hash8 where
  a : Nat
  b : Nat
  c : Nat
  d : Nat
  e : Nat
  f : Nat
  g : Nat
  h : Nat

/-- The SHA-256 initial hash value of FIPS 180-4, written in decimal. -/
def initH256 : Hash8 :=
  ⟨1779033703, 3144134277, 1013904242, 2773480762,
   1359893119, 2600822924, 528734635, 1541459225⟩

/-- A big-endian 32-bit word from four bytes. -/
def wordOfBytes (b : List Nat) : Nat :=
  b.getD 0 0 * 16777216 + b.getD 1 0 * 65536 + b.getD 2 0 * 256 + b.getD 3 0

/-- The four big-endian bytes of a 32-bit word. -/
def wordBytes (w : Nat) : List Nat := [w / 16777216 % 256, w / 65536 % 256, w / 256 % 256, w % 256]

/-- The 64-word SHA-256 message schedule of one 64-byte block. -/
def msgSchedule (block : List Nat) : List Nat :=
  let w0 := (List.range 16).map (fun i => wordOfBytes ((block.drop (4 * i)).take 4))
  (List.range 48).foldl (fun w _ =>
    let n := w.length
    w ++ [(w.getD (n - 16) 0 + smallSigma0 (w.getD (n - 15) 0) +
           w.getD (n - 7) 0 + smallSigma1 (w.getD (n - 2) 0)) % M32]) w0

/-- One SHA-256 compression round. -/
def round256 (st : Hash8) (k w : Nat) : Hash8 :=
  let t1 := (st.h + bigSigma1 st.e + ch32 st.e st.f st.g + k + w) % M32
  let t2 := (bigSigma0 st.a + maj32 st.a st.b st.c) % M32
  ⟨(t1 + t2) % M32, st.a, st.b, st.c, (st.d + t1) % M32, st.e, st.f, st.g⟩

/-- The SHA-256 compression function on one 64-byte block. -/
def compress256 (st : Hash8) (block : List Nat) : Hash8 :=
  let ws := msgSchedule block
  let r := (List.range 64).foldl (fun s i => round256 s (K256.getD i 0) (ws.getD i 0)) st
  ⟨(st.a + r.a) % M32, (st.b + r.b) % M32, (st.c + r.c) % M32, (st.d + r.d) % M32,
   (st.e + r.e) % M32, (st.f + r.f) % M32, (st.g + r.g) % M32, (st.h + r.h) % M32⟩

/-- The message bit length as eight big-endian bytes. -/
def lenBytes (n : Nat) : List Nat := (List.range 8).map (fun i => n / 2 ^ (8 * (7 - i)) % 256)

/-- SHA-256 padding: append `0x80`, zeros, and the 64-bit big-endian bit length,
reaching a multiple of 64 bytes. -/
def padMsg (msg : List Nat) : List Nat :=
  msg ++ [128] ++ List.replicate ((64 - ((msg.length + 9) % 64)) % 64) 0 ++
    lenBytes (8 * msg.length)

/-- The final SHA-256 state after compressing all padded blocks of `msg`. -/
def finalState (msg : List Nat) : Hash8 :=
  let p := padMsg msg
  (List.range (p.length / 64)).foldl (fun s i => compress256 s ((p.drop (64 * i)).take 64)) initH256

/-- The 32-byte digest read off a final state. -/
def digestOf (st : Hash8) : List Nat :=
  wordBytes st.a ++ wordBytes st.b ++ wordBytes st.c ++ wordBytes st.d ++
  wordBytes st.e ++ wordBytes st.f ++ wordBytes st.g ++ wordBytes st.h

/-- SHA-256 of a byte sequence (each byte a `Nat < 256`), as 32 bytes. -/
def sha256 (msg : List Nat) : List Nat := digestOf (finalState msg)

/-- The sixteen lowercase hexadecimal digit characters, built from their
code points (48–57 are the digits, 97–102 the letters a–f). -/
def hexChars : List Char :=
  (List.range 16).map (fun n => Char.ofNat (if n < 10 then 48 + n else 87 + n))

/-- The hexadecimal digit character of a nibble. -/
def hexDigit (n : Nat) : Char := hexChars.getD n '0'

/-- The two lowercase hex characters of one byte (bytes produced by `sha256`
are `< 256`, so the extra `% 16` on the high nibble is the identity there). -/
def byteHex (b : Nat) : List Char := [hexDigit (b / 16 % 16), hexDigit (b % 16)]

/-- Lowercase hexadecimal rendering of a byte sequence, as `hexdigest` does. -/
def hexOfBytes (bs : List Nat) : String := String.mk (bs.flatMap byteHex)

/-- UTF-8 encoding of one Unicode scalar value, as a list of bytes. -/
def utf8EncodeCp (c : Nat) : List Nat :=
  if c < 128 then [c]
  else if c < 2048 then [192 + c / 64, 128 + c % 64]
  else if c < 65536 then [224 + c / 4096, 128 + c / 64 % 64, 128 + c % 64]
  else [240 + c / 262144, 128 + c / 4096 % 64, 128 + c / 64 % 64, 128 + c % 64]

/-- The UTF-8 bytes of a string: Python `data.encode()` for valid Unicode text
(Lean `Char` is always a Unicode scalar value, so encoding is total here). -/
def strBytes (s : String) : List Nat := s.data.flatMap (fun ch => utf8EncodeCp ch.toNat)

/-- `secure_data` from src/testing.py:
`hashlib.sha256(data.encode()).hexdigest()`. -/
def secure_data (data : String) : String := hexOfBytes (sha256 (strBytes data))

/-- `verify_data` from src/testing.py:
`hashlib.sha256(data.encode()).hexdigest() == signature`. -/
def verify_data (data signature : String) : Bool := secure_data data == signature

/-- `GLOBAL_PERSISTENT_CONTEXT = []` from src/testing.py: the initial value of
the process-wide in-memory store. -/
def GLOBAL_PERSISTENT_CONTEXT : List String := []

/-- The observable process state of the module: the global context list and
the lines written to standard output by `print`. -/
structure PState where
  ctx : List String
  out : List String

/-- The process state at module load: empty global list, nothing printed. -/
def initState : PState := ⟨GLOBAL_PERSISTENT_CONTEXT, []⟩

/-- Python-style repr of a string, as `print` renders list elements
(quote escaping inside the payload is not modelled; no test input needs it). -/
def pyStrRepr (s : String) : String := "'" ++ s ++ "'"

/-- Python-style repr of a list of strings. -/
def pyListRepr (l : List String) : String :=
  "[" ++ String.intercalate ", " (l.map pyStrRepr) ++ "]"

/-- The line `PMLL` prints: `print("🚀 ~ Current in-memory context:", GLOBAL_PERSISTENT_CONTEXT)`. -/
def contextPrintLine (ctx : List String) : String :=
  "🚀 ~ Current in-memory context: " ++ pyListRepr ctx

/-- `persistent_memory_logic_loop` from src/testing.py:
`return f"PMLL processed: {input_data}"`. -/
def persistent_memory_logic_loop (input_data : String) : String :=
  "PMLL processed: " ++ input_data

/-- `PMLL` from src/testing.py: append `input_data` to the global context,
print the current context, and return the loop's response. State is passed
explicitly. -/
def PMLL (input_data : String) (s : PState) : String × PState :=
  let ctx1 := s.ctx ++ [input_data]
  let out1 := s.out ++ [contextPrintLine ctx1]
  (persistent_memory_logic_loop input_data, ⟨ctx1, out1⟩)

/-- Run a sequence of `PMLL` (record) calls from a given state. -/
def recordAll (inputs : List String) (s : PState) : PState :=
  inputs.foldl (fun t i => (PMLL i t).2) s

/-- The spec's `history()` observation: reading the global context list. -/
def history (s : PState) : List String := s.ctx

/-- Stateful view of `secure_data`: the Python function reads no global state
and prints nothing, so it returns its pure result and the state unchanged. -/
def secure_dataS (data : String) (s : PState) : String × PState := (secure_data data, s)

/-- A character is a lowercase hexadecimal digit. -/
def isHexChar (c : Char) : Bool := c.isDigit || ('a' ≤ c && c ≤ 'f')

/-- A code point in the UTF-16 surrogate range, which Python `str.encode()`
rejects with `UnicodeEncodeError`. -/
def isSurrogate (c : Nat) : Bool := 55296 ≤ c && c ≤ 57343

/-- Python `str.encode()` on an arbitrary `str` value (a list of code points,
surrogates included): fails with `UnicodeEncodeError` at the first surrogate,
otherwise yields the UTF-8 bytes. -/
def pyEncode : List Nat → Except String (List Nat)
  | [] => Except.ok []
  | c :: cs =>
    if isSurrogate c then Except.error "UnicodeEncodeError"
    else
      match pyEncode cs with
      | Except.ok rest => Except.ok (utf8EncodeCp c ++ rest)
      | Except.error e => Except.error e

/-- `secure_data` on an arbitrary Python `str` value: an uncaught
`UnicodeEncodeError` from `data.encode()` propagates to the caller. -/
def secure_dataPy (data : List Nat) : Except String String :=
  match pyEncode data with
  | Except.ok bytes => Except.ok (hexOfBytes (sha256 bytes))
  | Except.error e => Except.error e

set_option maxRecDepth 100000

example : secure_data "abc" =
    "ba7816bf8f01cfea414140de5dae2223b00361a396177a9cb410ff61f20015ad" := by rfl

example : secure_data "" =
    "e3b0c44298fc1c149afbf4c8996fb92427ae41e4649b934ca495991b7852b855" := by rfl

/-! ## Helper lemmas -/

theorem hexDigit_isHex (n : Nat) : isHexChar (hexDigit n) = true := by
  match n with
  | 0 => decide
  | 1 => decide
  | 2 => decide
  | 3 => decide
  | 4 => decide
  | 5 => decide
  | 6 => decide
  | 7 => decide
  | 8 => decide
  | 9 => decide
  | 10 => decide
  | 11 => decide
  | 12 => decide
  | 13 => decide
  | 14 => decide
  | 15 => decide
  | k + 16 => rfl

theorem flatMap_byteHex_length (bs : List Nat) : (bs.flatMap byteHex).length = 2 * bs.length := by
  induction bs with
  | nil => rfl
  | cons b t ih =>
    simp [List.flatMap_cons, byteHex, ih]
    omega

theorem flatMap_byteHex_all (bs : List Nat) : (bs.flatMap byteHex).all isHexChar = true := by
  induction bs with
  | nil => rfl
  | cons b t ih => simp [List.flatMap_cons, byteHex, hexDigit_isHex, ih]

theorem digestOf_length (st : Hash8) : (digestOf st).length = 32 := by
  simp [digestOf, wordBytes]

theorem sha256_length (msg : List Nat) : (sha256 msg).length = 32 := by
  show (digestOf (finalState msg)).length = 32
  exact digestOf_length _

theorem recordAll_ctx (inputs : List String) : ∀ s, (recordAll inputs s).ctx = s.ctx ++ inputs := by
  induction inputs with
  | nil => intro s; simp [recordAll]
  | cons i t ih =>
    intro s
    show (recordAll t (PMLL i s).2).ctx = s.ctx ++ i :: t
    rw [ih]
    simp [PMLL]

theorem pyEncode_ok (data : List Nat) (h : ∀ c ∈ data, isSurrogate c = false) :
    ∃ bs, pyEncode data = Except.ok bs := by
  induction data with
  | nil => exact ⟨[], rfl⟩
  | cons c t ih =>
    have hc : isSurrogate c = false := h c (List.mem_cons_self c t)
    obtain ⟨bs, hbs⟩ := ih (fun d hd => h d (List.mem_cons_of_mem c hd))
    exact ⟨utf8EncodeCp c ++ bs, by simp [pyEncode, hc, hbs]⟩

theorem pyEncode_error (data : List Nat) (h : ∃ c ∈ data, isSurrogate c = true) :
    pyEncode data = Except.error "UnicodeEncodeError" := by
  induction data with
  | nil => simp at h
  | cons c t ih =>
    by_cases hc : isSurrogate c = true
    · simp [pyEncode, hc]
    · have ht : ∃ d ∈ t, isSurrogate d = true := by
        obtain ⟨d, hd, hds⟩ := h
        rcases List.mem_cons.mp hd with h1 | h2
        · exact absurd (h1 ▸ hds) hc
        · exact ⟨d, h2, hds⟩
      simp [pyEncode, hc, ih ht]

/-! ## Claim theorems -/

/-- Claim C1: for every text `x`, verifying `x` against its own freshly computed
fingerprint succeeds: `verify_data x (secure_data x)` returns `true`. -/
theorem verify_own_fingerprint (x : String) : verify_data x (secure_data x) = true := by
  simp [verify_data]

/-- Claim C2: `verify_data data signature` returns `true` iff
`secure_data data = signature`, and returns `false` in every other case
(including malformed or wrong-length signatures); being a total Lean function
of type `Bool`, it never signals failure by raising. -/
theorem verify_iff_fingerprint_eq (data signature : String) :
    (verify_data data signature = true ↔ secure_data data = signature) ∧
    (verify_data data signature = false ↔ secure_data data ≠ signature) := by
  constructor
  · simp [verify_data]
  · simp [verify_data]

/-- Claim C3: from the initial empty log, a sequence of record calls yields a
history equal to the input list in insertion order, of the same length; in
particular duplicates are preserved: recording "x" twice gives ["x", "x"]. -/
theorem history_is_insertion_order :
    (∀ inputs : List String, history (recordAll inputs initState) = inputs ∧
      (history (recordAll inputs initState)).length = inputs.length) ∧
    history (recordAll ["x", "x"] initState) = ["x", "x"] := by
  refine ⟨fun inputs => ?_, by decide⟩
  have h1 : history (recordAll inputs initState) = inputs := by
    simpa [history, initState, GLOBAL_PERSISTENT_CONTEXT] using recordAll_ctx inputs initState
  exact ⟨h1, by rw [h1]⟩

/-- Claim C4: each record call appends its input as the sole change to the log
(length grows by exactly one, prior entries keep their positions), and over any
sequence of record calls the log only grows: the old log stays an initial
segment of the new one. -/
theorem record_appends_only :
    (∀ (input : String) (s : PState), (PMLL input s).2.ctx = s.ctx ++ [input] ∧
      (PMLL input s).2.ctx.length = s.ctx.length + 1) ∧
    (∀ (inputs : List String) (s : PState),
      ∃ added, (recordAll inputs s).ctx = s.ctx ++ added) :=
  ⟨fun input s => ⟨rfl, by simp [PMLL]⟩, fun inputs s => ⟨inputs, recordAll_ctx inputs s⟩⟩

/-- Claim C5: the fingerprint is a deterministic pure function of its text
input: in any two process states the result is identical, and computing it
leaves the state untouched. -/
theorem fingerprint_deterministic_pure (data : String) (s t : PState) :
    (secure_dataS data s).1 = (secure_dataS data t).1 ∧
    (secure_dataS data s).2 = s ∧
    (secure_dataS data s).1 = secure_data data :=
  ⟨rfl, rfl, rfl⟩

/-- Claim C6: for every text input the fingerprint is a 64-character string
all of whose characters are lowercase hexadecimal digits. -/
theorem fingerprint_hex64 (x : String) :
    (secure_data x).length = 64 ∧ ((secure_data x).data.all isHexChar) = true := by
  constructor
  · show ((sha256 (strBytes x)).flatMap byteHex).length = 64
    rw [flatMap_byteHex_length, sha256_length]
  · show ((sha256 (strBytes x)).flatMap byteHex).all isHexChar = true
    exact flatMap_byteHex_all _

/-- Claim C7: record returns a response derived deterministically from its
input; in particular recording "Hello, Persistent World!" returns a response
containing "Hello, Persistent World!" as a substring. -/
theorem record_response_incorporates_input (input : String) (s : PState) :
    (PMLL input s).1 = "PMLL processed: " ++ input ∧
    ∃ u v, (PMLL "Hello, Persistent World!" s).1 =
      u ++ "Hello, Persistent World!" ++ v := by
  refine ⟨rfl, "PMLL processed: ", "", ?_⟩
  show ("PMLL processed: " ++ "Hello, Persistent World!" : String) =
    "PMLL processed: " ++ "Hello, Persistent World!" ++ ""
  decide

/-- Claim C8, counterexample: the claim says a record call performs no I/O,
but `PMLL` writes a line to standard output: from the pristine state, the
output stream after one record call is non-empty. -/
theorem record_prints_counterexample :
    (PMLL "x" initState).2.out ≠ initState.out ∧
    (PMLL "x" initState).2.out = ["🚀 ~ Current in-memory context: ['x']"] := by
  constructor
  · decide
  · decide

/-- Claim C8, amended: a record call performs exactly two observable effects —
it appends its input to the log and writes one diagnostic line (the updated
context) to standard output — and returns its response; nothing else changes. -/
theorem record_effects_amended (input : String) (s : PState) :
    (PMLL input s).2.ctx = s.ctx ++ [input] ∧
    (PMLL input s).2.out = s.out ++ [contextPrintLine (s.ctx ++ [input])] ∧
    (PMLL input s).1 = persistent_memory_logic_loop input :=
  ⟨rfl, rfl, rfl⟩

/-- Claim C9: on a Python string value containing a code point that is not
representable in UTF-8 (a surrogate), the fingerprint surfaces the distinct
named failure `UnicodeEncodeError` to the caller; on every representable
string value it succeeds. -/
theorem fingerprint_encoding_failure (data : List Nat) :
    ((∀ c ∈ data, isSurrogate c = false) → ∃ hex, secure_dataPy data = Except.ok hex) ∧
    ((∃ c ∈ data, isSurrogate c = true) →
      secure_dataPy data = Except.error "UnicodeEncodeError") := by
  constructor
  · intro h
    obtain ⟨bs, hbs⟩ := pyEncode_ok data h
    exact ⟨hexOfBytes (sha256 bs), by simp [secure_dataPy, hbs]⟩
  · intro h
    simp [secure_dataPy, pyEncode_error data h]

/-- Witness for claim C9: the lone surrogate U+D800 makes the fingerprint fail
with `UnicodeEncodeError`, and the one-character string "a" succeeds. -/
theorem fingerprint_encoding_failure_witness :
    secure_dataPy [55296] = Except.error "UnicodeEncodeError" ∧
    ∃ hex, secure_dataPy [97] = Except.ok hex :=
  ⟨(fingerprint_encoding_failure [55296]).2 ⟨55296, by decide, by decide⟩,
   (fingerprint_encoding_failure [97]).1 (by decide)⟩

/-- Claim C10: the response of a record call is exactly
`"PMLL processed: "` followed by the input verbatim, and is identical
whatever the prior log state. -/
theorem record_response_exact (input : String) (s t : PState) :
    (PMLL input s).1 = "PMLL processed: " ++ input ∧
    (PMLL input s).1 = (PMLL input t).1 :=
  ⟨rfl, rfl⟩
